import Mathlib

/-!
# Texture-cache verification for the PCSX2 hardware renderer

Shallow embedding of the texture-cache entry points of
`src/pcsx2/GS/Renderers/HW/GSRendererHW.cpp` (renderer half and the appended
`GSTextureCache` header) and of the DX11 surface factory
`src/pcsx2/GS/Renderers/DX11/GSDevice11.cpp`, with theorems checking the
natural-language specification against the code.

Machine integers are embedded as `Nat`/`Int`; the source fields involved are
compared and copied only, so no overflow arithmetic arises except for the
`u32` draw-counter difference in `VSync`, which is embedded with an explicit
`% 2^32`.  Functions of the texture cache whose implementation is not part of
the excerpted sources (only the class header is) are modelled from the spec
and say so in their doc comment.
-/

namespace PCSX2

/-- `GSVector4i` used as a rectangle: `x` = left, `y` = top, `z` = right,
`w` = bottom (signed 32-bit lanes in the source, modelled as `Int`). -/
structure GSVector4i where
  x : Int
  y : Int
  z : Int
  w : Int
  deriving DecidableEq

/-- The fields of the `GIFRegBITBLTBUF` register: source/destination base
pointer, buffer width and pixel-storage format of a transfer. -/
structure GIFRegBITBLTBUF where
  SBP : Nat
  SBW : Nat
  SPSM : Nat
  DBP : Nat
  DBW : Nat
  DPSM : Nat
  deriving DecidableEq

/-- `GSState::GSUploadQueue`: a recorded CPU→GS transfer together with the
draw counter `draw` at which it was recorded. -/
structure GSUploadQueue where
  blit : GIFRegBITBLTBUF
  rect : GSVector4i
  draw : Nat
  deriving DecidableEq

/-- `m_mem.GetOffset(bp, bw, psm)`: the external page/swizzle mapper is opaque
to the cache, so an offset value is identified by the `(bp, bw, psm)` triple it
was built from. -/
structure GSOffset where
  bp : Nat
  bw : Nat
  psm : Nat
  deriving DecidableEq

/-- A call issued by the renderer into the texture cache: the observable
effect of the renderer-level invalidation entry points. -/
inductive TCCall where
  | invalidateVideoMem (off : GSOffset) (r : GSVector4i) (eewrite : Bool)
  | invalidateLocalMem (off : GSOffset) (r : GSVector4i)
  deriving DecidableEq

/-- `GSRendererHW::InvalidateVideoMem` (GSRendererHW.cpp:952-987), embedded as
the list of texture-cache calls it issues.  An EE write whose rectangle runs
past the 2048 texel boundary is split: the rectangle is first clamped at 2048,
then a second invalidation is issued wrapped back to 0 in the dimension that
overflowed (the source uses `r.w - 2048` for both wrapped extents). -/
def rendererInvalidateVideoMem (BITBLTBUF : GIFRegBITBLTBUF) (r : GSVector4i)
    (eewrite : Bool) : List TCCall :=
  let off : GSOffset := ⟨BITBLTBUF.DBP, BITBLTBUF.DBW, BITBLTBUF.DPSM⟩
  let loop_h := 2048 < r.w
  let loop_w := 2048 < r.z
  let rect1 : GSVector4i :=
    { r with
      w := if 2048 < r.w then 2048 else r.w
      z := if 2048 < r.z then 2048 else r.z }
  if loop_h ∨ loop_w then
    let rect2 : GSVector4i :=
      let ra := if loop_h then { rect1 with y := 0, w := r.w - 2048 } else rect1
      if loop_w then { ra with x := 0, z := r.w - 2048 } else ra
    [.invalidateVideoMem off rect1 eewrite, .invalidateVideoMem off rect2 eewrite]
  else
    [.invalidateVideoMem off r eewrite]

/-- The skip test at GSRendererHW.cpp:1004: a recorded transfer matches the
readback when it was recorded for the current draw and has the same
destination base pointer, destination format and rectangle. -/
def uploadMatches (s_n : Nat) (BITBLTBUF : GIFRegBITBLTBUF) (r : GSVector4i)
    (q : GSUploadQueue) : Bool :=
  decide (q.draw = s_n) && decide (BITBLTBUF.SBP = q.blit.DBP)
    && decide (q.blit.DPSM = BITBLTBUF.SPSM) && decide (r = q.rect)

/-- `GSRendererHW::InvalidateLocalMem` (GSRendererHW.cpp:989-1013), embedded
as the list of texture-cache calls it issues.  CLUT transfers return at once.
Otherwise `m_draw_transfers` is scanned from the back; when a matching
same-draw transfer is found the CPU-path invalidation is replaced by a
GPU-path `InvalidateVideoMem` call on the same range (with `eewrite` left at
its default `false`). -/
def rendererInvalidateLocalMem (draw_transfers : List GSUploadQueue) (s_n : Nat)
    (BITBLTBUF : GIFRegBITBLTBUF) (r : GSVector4i) (clut : Bool) : List TCCall :=
  if clut then
    []
  else
    let off : GSOffset := ⟨BITBLTBUF.SBP, BITBLTBUF.SBW, BITBLTBUF.SPSM⟩
    if draw_transfers.reverse.any (uploadMatches s_n BITBLTBUF r) then
      [.invalidateVideoMem off r false]
    else
      [.invalidateLocalMem off r]

/-- `GSTextureCache::MAX_BP` (GSRendererHW.cpp:4901): the largest block
pointer. -/
def MAX_BP : Nat := 0x3fff

/-- `MAX_BLOCKS`, the number of blocks in GS memory (`MAX_BP + 1`).  The
constant lives in `GSLocalMemory.h`, outside the excerpted sources; the spec
calls it the address-space size added to a wrapped end block. -/
def MAX_BLOCKS : Nat := 0x4000

/-- The fields of `GSTextureCache::Surface` (GSRendererHW.cpp:4982-5016) that
the wrap computation reads: the base block pointer `m_TEX0.TBP0` (a 14-bit
register field) and `m_end_block`. -/
structure Surface where
  TBP0 : Nat
  end_block : Nat
  deriving DecidableEq

/-- `Surface::Wraps` (GSRendererHW.cpp:5006): the target wraps around the end
of GS memory when its end block is below its base pointer. -/
def Surface.Wraps (s : Surface) : Bool :=
  decide (s.end_block < s.TBP0)

/-- `Surface::UnwrappedEndBlock` (GSRendererHW.cpp:5010): the end block
without wrapping at `0x3FFF`, used for overlap tests. -/
def Surface.UnwrappedEndBlock (s : Surface) : Nat :=
  s.end_block + (if s.Wraps then MAX_BLOCKS else 0)

/-- `GSTextureCache::CheckOverlap` (GSRendererHW.cpp:4903-4908): two block
ranges overlap when both are valid and they intersect. -/
def CheckOverlap (a_bp a_bp_end b_bp b_bp_end : Nat) : Bool :=
  let valid := decide (a_bp ≤ a_bp_end) && decide (b_bp ≤ b_bp_end)
  let overlap := decide (a_bp ≤ b_bp_end) && decide (a_bp_end ≥ b_bp)
  valid && overlap

/-- A live Target's page-range claim: its resource type (`RenderTarget` /
`DepthStencil`, the two-value enum at GSRendererHW.cpp:4895-4899) and the
unwrapped block range it shadows. -/
structure TargetClaim where
  ty : Bool
  bp : Nat
  end_block : Nat
  deriving DecidableEq

/-- An operation of the cache façade affecting which Targets are live. -/
inductive CacheOp where
  | lookupTarget (ty : Bool) (bp end_block : Nat)
  | invalidate (bp end_block : Nat)
  deriving DecidableEq

/-- Modelled from the spec: `GSTextureCache::LookupTarget` (declaration at
GSRendererHW.cpp:5300; implementation not part of the excerpt).  An exact
match is reused in place; on a miss a new Target is created only after every
overlapping same-type claim has been resolved by eviction or copy-forward
(`FindTargetOverlap`).  Overlap is decided by the source's `CheckOverlap`. -/
def lookupTargetStep (ts : List TargetClaim) (ty : Bool) (bp end_block : Nat) :
    List TargetClaim :=
  if ts.any (fun t => decide (t.ty = ty) && decide (t.bp = bp)
      && decide (t.end_block = end_block)) then
    ts
  else
    ⟨ty, bp, end_block⟩ ::
      ts.filter (fun t =>
        !(decide (t.ty = ty) && CheckOverlap t.bp t.end_block bp end_block))

/-- Modelled from the spec: the fate of one Target claim under the GPU-write
invalidation protocol — evicted when the written range covers it, shrunk to
exclude the intersection when it merely overlaps, untouched otherwise. -/
def invalidateClaim (bp end_block : Nat) (t : TargetClaim) : Option TargetClaim :=
  if CheckOverlap t.bp t.end_block bp end_block then
    if decide (bp ≤ t.bp) && decide (t.end_block ≤ end_block) then
      none
    else if bp ≤ t.bp then
      some { t with bp := end_block + 1 }
    else
      some { t with end_block := bp - 1 }
  else
    some t

/-- Modelled from the spec: the GPU-write invalidation protocol
(`GSTextureCache::InvalidateVideoMem`, declaration at GSRendererHW.cpp:5312;
implementation not part of the excerpt) applied to every live Target. -/
def invalidateStep (ts : List TargetClaim) (bp end_block : Nat) :
    List TargetClaim :=
  ts.filterMap (invalidateClaim bp end_block)

/-- One step of the cache façade. -/
def cacheStep (ts : List TargetClaim) : CacheOp → List TargetClaim
  | .lookupTarget ty bp e => lookupTargetStep ts ty bp e
  | .invalidate bp e => invalidateStep ts bp e

/-- The set of live Target claims after a sequence of façade operations,
starting from the empty cache. -/
def runCacheOps (ops : List CacheOp) : List TargetClaim :=
  ops.foldl cacheStep []

/-- No two live Targets of the same resource type have overlapping page
ranges (`CheckOverlap` is false on every distinct same-type pair). -/
def DisjointClaims (ts : List TargetClaim) : Prop :=
  ts.Pairwise (fun a b =>
    a.ty = b.ty → CheckOverlap a.bp a.end_block b.bp b.end_block = false)

/-- The fields of `GIFRegTEX0` that the display path reads. -/
structure GIFRegTEX0 where
  TBP0 : Nat
  TBW : Nat
  PSM : Nat
  deriving DecidableEq

/-- A live `GSTextureCache::Target` as seen by the display path: identity,
its GPU texture (`m_texture`, by identity), its scale, descriptor and pending
dirty queue (`m_dirty`). -/
structure TargetModel where
  id : Nat
  texture : Nat
  scale : Int
  TEX0 : GIFRegTEX0
  dirty : List GSVector4i
  deriving DecidableEq

/-- Modelled from the spec: `Target::Update` (declaration at
GSRendererHW.cpp:5139; implementation not part of the excerpt) flushes the
pending `m_dirty` queue into the GPU resource in insertion order and clears
it; the GPU uploads themselves are the backend's business, so the
cache-visible effect is the emptied queue. -/
def targetUpdate (t : TargetModel) : TargetModel :=
  { t with dirty := [] }

/-- An observable event of the display path: `Update` invoked on a Target. -/
inductive DisplayEvent where
  | update (targetId : Nat)
  deriving DecidableEq

/-- What a display-output entry point returns: the texture handed to
presentation (if any), the out-parameters `scale` and `y_offset`, and the
trace of `Update` invocations. -/
structure OutputResult where
  tex : Option Nat
  scale : Int
  y_offset : Int
  events : List DisplayEvent
  deriving DecidableEq

/-- `GSRendererHW::GetOutput` (GSRendererHW.cpp:203-247).  `lookup` is the
result of `m_tc->LookupDisplayTarget` (implementation not part of the
excerpt, abstracted as an oracle); `fbBlock`/`fbFBW` are the current
framebuffer's block and width; `pgsY` is the page height
`GSLocalMemory::m_psm[PSM].pgs.y` of the external format table; `scale0` and
`y0` are the values the by-reference out-parameters hold on entry.  All
divisions occur under the guard `0 < delta`, where they agree with C integer
division. -/
def rendererGetOutput (lookup : Option TargetModel) (fbBlock fbFBW : Nat)
    (pgsY scale0 y0 : Int) : OutputResult :=
  match lookup with
  | none => ⟨none, scale0, y0, []⟩
  | some rt =>
      let rt' := targetUpdate rt
      let t := rt'.texture
      let delta : Int := (fbBlock : Int) - (rt.TEX0.TBP0 : Int)
      let y_offset :=
        if 0 < delta ∧ fbFBW ≠ 0 then
          let pages := delta / 32
          let y_pages := pages / (fbFBW : Int)
          y_pages * pgsY
        else y0
      ⟨some t, rt'.scale, y_offset, [DisplayEvent.update rt.id]⟩

/-- `GSRendererHW::GetFeedbackOutput` (GSRendererHW.cpp:249-273).  `lookup`
abstracts `m_tc->LookupDisplayTarget` on the EXTBUF descriptor; the entry
point has no `y_offset` out-parameter, recorded as `0`. -/
def rendererGetFeedbackOutput (lookup : Option TargetModel) (scale0 : Int) :
    OutputResult :=
  match lookup with
  | none => ⟨none, scale0, 0, []⟩
  | some rt =>
      let rt' := targetUpdate rt
      ⟨some rt'.texture, rt'.scale, 0, [DisplayEvent.update rt.id]⟩

/-- An aged cache entity: a Source, Target or hash-cache entry with its age,
reference count (always 0 for entities that have no refcount field) and the
GPU memory it accounts for. -/
structure AgedEntry where
  age : Nat
  refs : Nat
  mem : Nat
  deriving DecidableEq

/-- The texture-cache registries the VSync tick touches. -/
structure TCState where
  sources : List AgedEntry
  targets : List AgedEntry
  hashEntries : List AgedEntry
  deriving DecidableEq

/-- Ageing one entry. -/
def bumpEntry (e : AgedEntry) : AgedEntry :=
  { e with age := e.age + 1 }

/-- Modelled from the spec: one registry under `IncAge` — every live entry's
age is incremented, and anything aged beyond the fixed threshold with zero
references is purged. -/
def agePurge (maxAge : Nat) (l : List AgedEntry) : List AgedEntry :=
  (l.map bumpEntry).filter (fun e => !(decide (maxAge < e.age) && decide (e.refs = 0)))

/-- Modelled from the spec: `GSTextureCache::IncAge` (declaration at
GSRendererHW.cpp:5317; implementation not part of the excerpt) increments the
age of every live Source, Target and hash-cache entry and purges entries past
the threshold with zero references. -/
def incAge (maxAge : Nat) (tc : TCState) : TCState :=
  ⟨agePurge maxAge tc.sources, agePurge maxAge tc.targets,
    agePurge maxAge tc.hashEntries⟩

/-- Modelled from the spec: `GSTextureCache::RemoveAll` (declaration at
GSRendererHW.cpp:5287; implementation not part of the excerpt) is the full
teardown — every Source, Target and hash-cache entry is released. -/
def removeAll : TCState :=
  ⟨[], [], []⟩

/-- `GSTextureCache::GetHashCacheMemoryUsage` (GSRendererHW.cpp:5279): the
bytes accounted to the hash cache. -/
def hashCacheMemoryUsage (tc : TCState) : Nat :=
  (tc.hashEntries.map (fun e => e.mem)).sum

/-- `TexturePreloadingLevel` of the global GS configuration. -/
inductive TexturePreloading where
  | off
  | partialPreload
  | full
  deriving DecidableEq

/-- The renderer fields `GSRendererHW::VSync` reads and writes. -/
structure VSyncState where
  force_preload : Nat
  draw_transfers : List GSUploadQueue
  last_draw_n : Nat
  last_transfer_n : Nat
  tc : TCState
  texturePreloading : TexturePreloading
  deriving DecidableEq

/-- Unsigned 32-bit subtraction `a - b`, as computed on the `u32` draw
counters. -/
def u32sub (a b : Nat) : Nat :=
  ((a % 2 ^ 32) + (2 ^ 32 - b % 2 ^ 32)) % 2 ^ 32

/-- The `m_draw_transfers` maintenance at the top of `GSRendererHW::VSync`
(GSRendererHW.cpp:152-169): while a forced preload is pending, transfers
older than 5 draws are erased once the countdown expires; otherwise the whole
list is cleared. -/
def vsyncPrune (st : VSyncState) (s_n : Nat) : VSyncState :=
  if 0 < st.force_preload then
    if st.force_preload - 1 = 0 then
      { st with force_preload := st.force_preload - 1
                draw_transfers :=
                  st.draw_transfers.filter (fun q => !decide (5 < u32sub s_n q.draw)) }
    else
      { st with force_preload := st.force_preload - 1 }
  else
    { st with draw_transfers := [] }

/-- The ageing condition of `GSRendererHW::VSync` (GSRendererHW.cpp:176-183):
the cache is aged unless no draws and no EE writes have occurred since the
last tick (`m_last_draw_n == s_n && m_last_transfer_n == s_transfer_n`).
The two member fields are unchanged since function entry, so they are read
from `st`. -/
def vsyncAges (st : VSyncState) (s_n s_transfer_n : Nat) : Bool :=
  !(decide (st.last_draw_n = s_n) && decide (st.last_transfer_n = s_transfer_n))

/-- The hash-cache overflow check of `GSRendererHW::VSync`
(GSRendererHW.cpp:190-197): once `GetHashCacheMemoryUsage()` exceeds
`1024*1024*1024` bytes the whole texture cache is removed and
`TexturePreloading` is downgraded to `Partial`. -/
def vsyncOverflow (st : VSyncState) : VSyncState :=
  if 1024 * 1024 * 1024 < hashCacheMemoryUsage st.tc then
    { st with tc := removeAll,
              texturePreloading := TexturePreloading.partialPreload }
  else
    st

/-- `GSRendererHW::VSync` (GSRendererHW.cpp:150-201), restricted to its
texture-cache effects: pruning of `m_draw_transfers`, the conditional
`IncAge`, the draw/transfer bookkeeping, and the hash-cache overflow check.
`s_n`/`s_transfer_n` are the global draw and transfer counters; the second
component reports whether `IncAge` ran. -/
def vsyncStep (maxAge : Nat) (st : VSyncState) (s_n s_transfer_n : Nat) :
    VSyncState × Bool :=
  let st1 := vsyncPrune st s_n
  let ages := vsyncAges st s_n s_transfer_n
  let st2 := if ages then { st1 with tc := incAge maxAge st1.tc } else st1
  let st3 := { st2 with last_draw_n := s_n + 1, last_transfer_n := s_transfer_n }
  (vsyncOverflow st3, ages)

/-- `GSTextureCache::SurfaceOffsetKeyElem` (GSRendererHW.cpp:5205-5211): one
side of a surface-offset query — a descriptor `(psm, bp, bw)` together with a
rectangle. -/
structure SurfaceOffsetKeyElem where
  psm : Nat
  bp : Nat
  bw : Nat
  rect : GSVector4i
  deriving DecidableEq

/-- `GSTextureCache::SurfaceOffsetKey` (GSRendererHW.cpp:5213-5216): the
`std::array` of the A and B elements, modelled as two fields. -/
structure SurfaceOffsetKey where
  elemA : SurfaceOffsetKeyElem
  elemB : SurfaceOffsetKeyElem
  deriving DecidableEq

/-- `GSTextureCache::SurfaceOffset` (GSRendererHW.cpp:5218-5222): the
memoized result. -/
structure SurfaceOffsetResult where
  is_valid : Bool
  b2a_offset : GSVector4i
  deriving DecidableEq

/-- `GSTextureCache::S_SURFACE_OFFSET_CACHE_MAX_SIZE`
(GSRendererHW.cpp:5246): `std::numeric_limits<u16>::max()`. -/
def S_SURFACE_OFFSET_CACHE_MAX_SIZE : Nat := 65535

/-- Modelled from the spec: insertion into the bounded memoization map
`m_surface_offset_cache` (GSRendererHW.cpp:5247; `ComputeSurfaceOffset`'s
implementation is not part of the excerpt).  A present key is left as is; a
map that would outgrow `S_SURFACE_OFFSET_CACHE_MAX_SIZE` is cleared before
the new entry is added.  The `unordered_map` is modelled as an association
list. -/
def surfaceOffsetCacheInsert (c : List (SurfaceOffsetKey × SurfaceOffsetResult))
    (k : SurfaceOffsetKey) (v : SurfaceOffsetResult) :
    List (SurfaceOffsetKey × SurfaceOffsetResult) :=
  if c.any (fun e => decide (e.1 = k)) then
    c
  else
    (k, v) :: (if S_SURFACE_OFFSET_CACHE_MAX_SIZE < c.length + 1 then [] else c)

/-- The memoization map after a sequence of `ComputeSurfaceOffset` misses,
starting empty. -/
def runSurfaceOffsetInserts
    (entries : List (SurfaceOffsetKey × SurfaceOffsetResult)) :
    List (SurfaceOffsetKey × SurfaceOffsetResult) :=
  entries.foldl (fun c e => surfaceOffsetCacheInsert c e.1 e.2) []

/-- `GSTexture::Type` as used by `GSDevice11::CreateSurface`. -/
inductive GSTextureType where
  | invalid
  | renderTarget
  | depthStencil
  | texture
  | rwTexture
  deriving DecidableEq

/-- A texture format together with the result of the external
`GSTexture::IsCompressedFormat` predicate on it. -/
structure GSTextureFormat where
  id : Nat
  compressed : Bool
  deriving DecidableEq

/-- The fields of `D3D11_TEXTURE2D_DESC` that `CreateSurface` computes
(the constant ones — array size, sample desc, usage — are omitted). -/
structure D3D11TextureDesc where
  width : Int
  height : Int
  format : Nat
  mipLevels : Int
  bindFlags : Nat
  miscFlags : Nat
  deriving DecidableEq

/-- `D3D11_BIND_SHADER_RESOURCE`. -/
def BIND_SHADER_RESOURCE : Nat := 0x8
/-- `D3D11_BIND_RENDER_TARGET`. -/
def BIND_RENDER_TARGET : Nat := 0x20
/-- `D3D11_BIND_DEPTH_STENCIL`. -/
def BIND_DEPTH_STENCIL : Nat := 0x40
/-- `D3D11_BIND_UNORDERED_ACCESS`. -/
def BIND_UNORDERED_ACCESS : Nat := 0x80
/-- `D3D11_RESOURCE_MISC_GENERATE_MIPS`. -/
def MISC_GENERATE_MIPS : Nat := 0x1

/-- A constructed `GSTexture11`: the descriptor it was created with, its type
and format. -/
structure GSTexture11Model where
  desc : D3D11TextureDesc
  ty : GSTextureType
  format : GSTextureFormat
  deriving DecidableEq

/-- The exception `CreateSurface` raises: `std::bad_alloc`. -/
inductive AllocError where
  | badAlloc
  deriving DecidableEq

/-- `GSDevice11::CreateSurface` (GSDevice11.cpp:508-557).  `d3d_texsize` is
`m_d3d_texsize`; `createTexture2DSucceeds` abstracts the backend
`CreateTexture2D` outcome.  The function value is the returned pointer `t`
(`none` would be null) or the raised exception. -/
def GSDevice11CreateSurface (d3d_texsize : Int) (createTexture2DSucceeds : Bool)
    (ty : GSTextureType) (width height levels : Int) (format : GSTextureFormat) :
    Except AllocError (Option GSTexture11Model) :=
  let mipchain := 1 < levels ∧ format.compressed = false
  let desc : D3D11TextureDesc :=
    { width := min (max width 1) d3d_texsize
      height := min (max height 1) d3d_texsize
      format := format.id
      mipLevels := levels
      bindFlags :=
        match ty with
        | .renderTarget => BIND_RENDER_TARGET ||| BIND_SHADER_RESOURCE
        | .depthStencil => BIND_DEPTH_STENCIL ||| BIND_SHADER_RESOURCE
        | .texture =>
            if mipchain then BIND_RENDER_TARGET ||| BIND_SHADER_RESOURCE
            else BIND_SHADER_RESOURCE
        | .rwTexture => BIND_UNORDERED_ACCESS ||| BIND_SHADER_RESOURCE
        | .invalid => 0
      miscFlags :=
        match ty with
        | .texture => if mipchain then MISC_GENERATE_MIPS else 0
        | _ => 0 }
  if createTexture2DSucceeds then
    Except.ok (some ⟨desc, ty, format⟩)
  else
    Except.error AllocError.badAlloc

/-- C9: a call to `GSRendererHW::InvalidateLocalMem` with the `clut` flag set
returns immediately: no texture-cache call at all is issued, so no Source is
destroyed and no Target dirty queue is modified. -/
theorem invalidateLocalMem_clut_is_noop (draw_transfers : List GSUploadQueue)
    (s_n : Nat) (BITBLTBUF : GIFRegBITBLTBUF) (r : GSVector4i) :
    rendererInvalidateLocalMem draw_transfers s_n BITBLTBUF r true = [] := rfl

/-- C1 counterexample: with a transfer to `DBP = 0x100`, format 0, rectangle
`(0,0,64,64)` recorded for the current draw 7, the readback invalidation of
the very same destination is not a no-op — it issues a GPU-path
`InvalidateVideoMem` call into the texture cache. -/
theorem invalidateLocalMem_dedup_not_noop_cex :
    rendererInvalidateLocalMem [⟨⟨0, 0, 0, 0x100, 2, 0⟩, ⟨0, 0, 64, 64⟩, 7⟩] 7
        ⟨0x100, 2, 0, 0, 0, 0⟩ ⟨0, 0, 64, 64⟩ false =
      [TCCall.invalidateVideoMem ⟨0x100, 2, 0⟩ ⟨0, 0, 64, 64⟩ false] ∧
    rendererInvalidateLocalMem [⟨⟨0, 0, 0, 0x100, 2, 0⟩, ⟨0, 0, 64, 64⟩, 7⟩] 7
        ⟨0x100, 2, 0, 0, 0, 0⟩ ⟨0, 0, 64, 64⟩ false ≠ [] := by
  exact ⟨by decide, by decide⟩

/-- C1 amended: when a transfer identical to the readback (same destination
base pointer, same destination format, equal rectangle) was already recorded
for the current draw index, `InvalidateLocalMem` skips the CPU-path cache
invalidation and instead issues a single GPU-path `InvalidateVideoMem` call
on the same offset and rectangle; otherwise it issues the CPU-path
`InvalidateLocalMem` call.  It is never a no-op for non-CLUT transfers. -/
theorem invalidateLocalMem_dedup_redirects (draw_transfers : List GSUploadQueue)
    (s_n : Nat) (BITBLTBUF : GIFRegBITBLTBUF) (r : GSVector4i) :
    rendererInvalidateLocalMem draw_transfers s_n BITBLTBUF r false =
      (if ∃ q ∈ draw_transfers, q.draw = s_n ∧ BITBLTBUF.SBP = q.blit.DBP
          ∧ q.blit.DPSM = BITBLTBUF.SPSM ∧ r = q.rect then
        [TCCall.invalidateVideoMem ⟨BITBLTBUF.SBP, BITBLTBUF.SBW, BITBLTBUF.SPSM⟩ r false]
      else
        [TCCall.invalidateLocalMem ⟨BITBLTBUF.SBP, BITBLTBUF.SBW, BITBLTBUF.SPSM⟩ r]) := by
  have hany : (draw_transfers.reverse.any (uploadMatches s_n BITBLTBUF r) = true) ↔
      ∃ q ∈ draw_transfers, q.draw = s_n ∧ BITBLTBUF.SBP = q.blit.DBP
        ∧ q.blit.DPSM = BITBLTBUF.SPSM ∧ r = q.rect := by
    simp [List.any_eq_true, uploadMatches, and_assoc]
  by_cases h : ∃ q ∈ draw_transfers, q.draw = s_n ∧ BITBLTBUF.SBP = q.blit.DBP
      ∧ q.blit.DPSM = BITBLTBUF.SPSM ∧ r = q.rect
  · rw [if_pos h]
    simp only [rendererInvalidateLocalMem, Bool.false_eq_true, if_false]
    rw [if_pos (hany.mpr h)]
  · rw [if_neg h]
    simp only [rendererInvalidateLocalMem, Bool.false_eq_true, if_false]
    rw [if_neg (fun hx => h (hany.mp hx))]

/-- Clamping at the 2048 boundary, as a `min`. -/
theorem ite_gt_2048_eq_min (a : Int) :
    (if 2048 < a then 2048 else a) = min a 2048 := by
  rcases le_or_lt a 2048 with h | h
  · rw [if_neg (not_lt.mpr h), min_eq_left h]
  · rw [if_pos h, min_eq_right h.le]

/-- C10: `GSRendererHW::InvalidateVideoMem` issues exactly one cache
invalidation with the original rectangle when the rectangle's bottom and
right are both at most 2048; otherwise it issues exactly two, both on the
same destination offset, the first clamped to the 2048 boundary and the
second wrapped to begin at coordinate 0 in each dimension that exceeded the
boundary. -/
theorem invalidateVideoMem_split (BITBLTBUF : GIFRegBITBLTBUF) (r : GSVector4i)
    (ee : Bool) :
    (r.w ≤ 2048 ∧ r.z ≤ 2048 →
      rendererInvalidateVideoMem BITBLTBUF r ee =
        [TCCall.invalidateVideoMem ⟨BITBLTBUF.DBP, BITBLTBUF.DBW, BITBLTBUF.DPSM⟩ r ee]) ∧
    (2048 < r.w ∨ 2048 < r.z →
      ∃ r1 r2 : GSVector4i,
        rendererInvalidateVideoMem BITBLTBUF r ee =
          [TCCall.invalidateVideoMem ⟨BITBLTBUF.DBP, BITBLTBUF.DBW, BITBLTBUF.DPSM⟩ r1 ee,
           TCCall.invalidateVideoMem ⟨BITBLTBUF.DBP, BITBLTBUF.DBW, BITBLTBUF.DPSM⟩ r2 ee] ∧
        r1.x = r.x ∧ r1.y = r.y ∧ r1.z = min r.z 2048 ∧ r1.w = min r.w 2048 ∧
        (2048 < r.w → r2.y = 0) ∧ (2048 < r.z → r2.x = 0)) := by
  constructor
  · rintro ⟨hw, hz⟩
    simp [rendererInvalidateVideoMem, not_lt.mpr hw, not_lt.mpr hz]
  · intro h
    by_cases hW : 2048 < r.w <;> by_cases hZ : 2048 < r.z
    · exact ⟨⟨r.x, r.y, 2048, 2048⟩, ⟨0, 0, r.w - 2048, r.w - 2048⟩,
        by simp [rendererInvalidateVideoMem, hW, hZ],
        rfl, rfl, (min_eq_right hZ.le).symm, (min_eq_right hW.le).symm,
        fun _ => rfl, fun _ => rfl⟩
    · exact ⟨⟨r.x, r.y, r.z, 2048⟩, ⟨r.x, 0, r.z, r.w - 2048⟩,
        by simp [rendererInvalidateVideoMem, hW, hZ],
        rfl, rfl, (min_eq_left (not_lt.mp hZ)).symm, (min_eq_right hW.le).symm,
        fun _ => rfl, fun hc => absurd hc hZ⟩
    · exact ⟨⟨r.x, r.y, 2048, r.w⟩, ⟨0, r.y, r.w - 2048, r.w⟩,
        by simp [rendererInvalidateVideoMem, hW, hZ],
        rfl, rfl, (min_eq_right hZ.le).symm, (min_eq_left (not_lt.mp hW)).symm,
        fun hc => absurd hc hW, fun _ => rfl⟩
    · exact absurd h (by simp [hW, hZ])

/-- C10 witness: a small EE write is invalidated once unchanged; a looping
`640×4000` write is split into two invalidations. -/
theorem invalidateVideoMem_split_witness :
    rendererInvalidateVideoMem ⟨0, 0, 0, 0x200, 4, 1⟩ ⟨0, 0, 640, 448⟩ true =
      [TCCall.invalidateVideoMem ⟨0x200, 4, 1⟩ ⟨0, 0, 640, 448⟩ true] ∧
    (rendererInvalidateVideoMem ⟨0, 0, 0, 0x200, 4, 1⟩ ⟨0, 0, 640, 4000⟩ true).length = 2 := by
  constructor
  · exact (invalidateVideoMem_split ⟨0, 0, 0, 0x200, 4, 1⟩ ⟨0, 0, 640, 448⟩ true).1
      (by constructor <;> decide)
  · obtain ⟨r1, r2, heq, -⟩ :=
      (invalidateVideoMem_split ⟨0, 0, 0, 0x200, 4, 1⟩ ⟨0, 0, 640, 4000⟩ true).2
        (Or.inl (by decide))
    rw [heq]
    rfl

/-- C6: a Surface wraps exactly when `m_end_block < TBP0`; its unwrapped end
block is `m_end_block` plus the address-space size `MAX_BLOCKS` when
wrapping, `m_end_block` otherwise, and (since `TBP0` is a 14-bit field, at
most `MAX_BP`) the unwrapped end is always at least `TBP0`. -/
theorem unwrappedEndBlock_spec (s : Surface) (h : s.TBP0 ≤ MAX_BP) :
    (s.Wraps = true ↔ s.end_block < s.TBP0) ∧
    s.UnwrappedEndBlock =
      s.end_block + (if s.end_block < s.TBP0 then MAX_BLOCKS else 0) ∧
    s.TBP0 ≤ s.UnwrappedEndBlock := by
  refine ⟨by simp [Surface.Wraps], ?_, ?_⟩
  · by_cases hw : s.end_block < s.TBP0
    · rw [Surface.UnwrappedEndBlock, Surface.Wraps, if_pos (by simpa using hw), if_pos hw]
    · rw [Surface.UnwrappedEndBlock, Surface.Wraps, if_neg (by simpa using hw), if_neg hw]
  · rw [MAX_BP] at h
    by_cases hw : s.end_block < s.TBP0
    · rw [Surface.UnwrappedEndBlock, Surface.Wraps, if_pos (by simpa using hw), MAX_BLOCKS]
      omega
    · rw [Surface.UnwrappedEndBlock, Surface.Wraps, if_neg (by simpa using hw)]
      omega

/-- C6 witness: a wrapping surface (`TBP0 = 0x3000`, `m_end_block = 0x100`)
has unwrapped end `0x4100 ≥ 0x3000`. -/
theorem unwrappedEndBlock_spec_witness :
    ((⟨0x3000, 0x100⟩ : Surface).Wraps = true ↔ (0x100 : Nat) < 0x3000) ∧
    (⟨0x3000, 0x100⟩ : Surface).UnwrappedEndBlock =
      0x100 + (if (0x100 : Nat) < 0x3000 then MAX_BLOCKS else 0) ∧
    (0x3000 : Nat) ≤ (⟨0x3000, 0x100⟩ : Surface).UnwrappedEndBlock := by
  have h := unwrappedEndBlock_spec ⟨0x3000, 0x100⟩ (by decide)
  exact h

/-- `CheckOverlap` in propositional form. -/
theorem checkOverlap_iff (a b c d : Nat) :
    CheckOverlap a b c d = true ↔ ((a ≤ b ∧ c ≤ d) ∧ a ≤ d ∧ c ≤ b) := by
  simp only [CheckOverlap, Bool.and_eq_true, decide_eq_true_eq, ge_iff_le]

/-- `CheckOverlap` is symmetric in its two ranges. -/
theorem checkOverlap_comm (a b c d : Nat) :
    CheckOverlap a b c d = CheckOverlap c d a b := by
  rw [Bool.eq_iff_iff, checkOverlap_iff, checkOverlap_iff]
  tauto

/-- A lookup step preserves pairwise disjointness: the new claim is only
created after every overlapping same-type claim has been evicted. -/
theorem disjoint_lookupTargetStep (ts : List TargetClaim) (ty : Bool)
    (bp e : Nat) (h : DisjointClaims ts) :
    DisjointClaims (lookupTargetStep ts ty bp e) := by
  unfold lookupTargetStep
  split
  · exact h
  · refine List.Pairwise.cons ?_ (h.filter _)
    intro t ht hty
    obtain ⟨-, hpred⟩ := List.mem_filter.mp ht
    simp only [Bool.not_eq_true', Bool.and_eq_false_iff, decide_eq_false_iff_not] at hpred
    rcases hpred with hne | hco
    · exact absurd hty.symm hne
    · rw [checkOverlap_comm]
      exact hco

/-- A surviving claim after invalidation keeps its type and shrinks (or
keeps) its block range. -/
theorem invalidateClaim_shrinks {bp e : Nat} {t x : TargetClaim}
    (hx : invalidateClaim bp e t = some x) :
    x.ty = t.ty ∧ t.bp ≤ x.bp ∧ x.end_block ≤ t.end_block := by
  unfold invalidateClaim at hx
  split at hx
  case isTrue hov =>
    have hov' := (checkOverlap_iff _ _ _ _).mp hov
    split at hx
    case isTrue => exact absurd hx (by simp)
    case isFalse hful =>
      split at hx
      case isTrue hle =>
        have hx' := Option.some.inj hx
        subst hx'
        exact ⟨rfl, by show t.bp ≤ e + 1; omega, le_refl _⟩
      case isFalse hgt =>
        have hx' := Option.some.inj hx
        subst hx'
        exact ⟨rfl, le_refl _, by show bp - 1 ≤ t.end_block; omega⟩
  case isFalse =>
    have hx' := Option.some.inj hx
    subst hx'
    exact ⟨rfl, le_refl _, le_refl _⟩

/-- An invalidation step preserves pairwise disjointness: claims only shrink
or disappear. -/
theorem disjoint_invalidateStep (ts : List TargetClaim) (bp e : Nat)
    (h : DisjointClaims ts) : DisjointClaims (invalidateStep ts bp e) := by
  unfold invalidateStep DisjointClaims
  rw [List.pairwise_filterMap]
  refine h.imp ?_
  intro a b hab x hx y hy hty
  rw [Option.mem_def] at hx hy
  obtain ⟨htya, hbpa, henda⟩ := invalidateClaim_shrinks hx
  obtain ⟨htyb, hbpb, hendb⟩ := invalidateClaim_shrinks hy
  have hab' := hab (htya.symm.trans (hty.trans htyb))
  cases hq : CheckOverlap x.bp x.end_block y.bp y.end_block
  · rfl
  · exfalso
    have h1 := (checkOverlap_iff _ _ _ _).mp hq
    have h2 : CheckOverlap a.bp a.end_block b.bp b.end_block = true :=
      (checkOverlap_iff _ _ _ _).mpr (by omega)
    exact Bool.false_ne_true (hab'.symm.trans h2)

/-- C2: after any sequence of lookup and invalidation operations starting
from the empty cache, no two live Targets of the same resource type have
overlapping page ranges; an overlapping claim is always resolved before a
new claim is created. -/
theorem targetClaims_disjoint (ops : List CacheOp) :
    DisjointClaims (runCacheOps ops) := by
  suffices H : ∀ ts, DisjointClaims ts → DisjointClaims (ops.foldl cacheStep ts) by
    exact H [] List.Pairwise.nil
  induction ops with
  | nil => exact fun ts h => h
  | cons op ops ih =>
      intro ts h
      rw [List.foldl_cons]
      refine ih _ ?_
      cases op with
      | lookupTarget ty bp e => exact disjoint_lookupTargetStep _ _ _ _ h
      | invalidate bp e => exact disjoint_invalidateStep _ _ _ h

/-- Transfer pruning does not touch the texture cache. -/
theorem vsyncPrune_tc (st : VSyncState) (s_n : Nat) :
    (vsyncPrune st s_n).tc = st.tc := by
  unfold vsyncPrune
  split
  · split <;> rfl
  · rfl

/-- Transfer pruning does not touch the preloading configuration. -/
theorem vsyncPrune_texturePreloading (st : VSyncState) (s_n : Nat) :
    (vsyncPrune st s_n).texturePreloading = st.texturePreloading := by
  unfold vsyncPrune
  split
  · split <;> rfl
  · rfl

/-- What one VSync tick does to the cache: the ageing flag, the resulting
registries and the resulting preloading level, as functions of the entry
state. -/
theorem vsyncStep_characterization (maxAge : Nat) (st : VSyncState)
    (s_n s_transfer_n : Nat) :
    (vsyncStep maxAge st s_n s_transfer_n).2 = vsyncAges st s_n s_transfer_n ∧
    (vsyncStep maxAge st s_n s_transfer_n).1.tc =
      (let tcMid := if vsyncAges st s_n s_transfer_n then incAge maxAge st.tc else st.tc
       if 1024 * 1024 * 1024 < hashCacheMemoryUsage tcMid then removeAll else tcMid) ∧
    (vsyncStep maxAge st s_n s_transfer_n).1.texturePreloading =
      (let tcMid := if vsyncAges st s_n s_transfer_n then incAge maxAge st.tc else st.tc
       if 1024 * 1024 * 1024 < hashCacheMemoryUsage tcMid then
         TexturePreloading.partialPreload
       else st.texturePreloading) := by
  refine ⟨rfl, ?_, ?_⟩ <;>
    cases hA : vsyncAges st s_n s_transfer_n <;>
      simp [vsyncStep, vsyncOverflow, hA, vsyncPrune_tc, vsyncPrune_texturePreloading] <;>
      split <;>
      simp [vsyncPrune_tc, vsyncPrune_texturePreloading]

/-- Every entry of an aged registry is the age-bump of a former entry. -/
theorem mem_agePurge_imp {maxAge : Nat} {l : List AgedEntry} {e : AgedEntry}
    (he : e ∈ agePurge maxAge l) : ∃ e₀ ∈ l, e = bumpEntry e₀ := by
  unfold agePurge at he
  obtain ⟨hmem, -⟩ := List.mem_filter.mp he
  obtain ⟨e₀, he₀, rfl⟩ := List.mem_map.mp hmem
  exact ⟨e₀, he₀, rfl⟩

/-- An entry that is still under the age threshold, or still referenced,
survives ageing with its age incremented. -/
theorem bump_mem_agePurge {maxAge : Nat} {l : List AgedEntry} {e₀ : AgedEntry}
    (h : e₀ ∈ l) (hkeep : e₀.age + 1 ≤ maxAge ∨ e₀.refs ≠ 0) :
    bumpEntry e₀ ∈ agePurge maxAge l := by
  unfold agePurge
  refine List.mem_filter.mpr ⟨List.mem_map_of_mem bumpEntry h, ?_⟩
  simp only [bumpEntry, Bool.not_eq_true', Bool.and_eq_false_iff,
    decide_eq_false_iff_not]
  rcases hkeep with hk | hk
  · exact Or.inl (by omega)
  · exact Or.inr hk

/-- C3 counterexample: a VSync tick on which no draw and no EE transfer has
occurred since the previous tick (`m_last_draw_n = s_n = 5`,
`m_last_transfer_n = s_transfer_n = 9`) does not invoke `IncAge`: the
ageing flag is false and the cache registries are untouched (the Source's
age stays 3). -/
theorem vsync_incAge_skipped_cex :
    (vsyncStep 100 ⟨0, [], 5, 9, ⟨[⟨3, 0, 0⟩], [], []⟩, TexturePreloading.off⟩ 5 9).2 =
      false ∧
    (vsyncStep 100 ⟨0, [], 5, 9, ⟨[⟨3, 0, 0⟩], [], []⟩, TexturePreloading.off⟩ 5 9).1.tc =
      ⟨[⟨3, 0, 0⟩], [], []⟩ := by
  exact ⟨by decide, by decide⟩

/-- C3 amended: `IncAge` is invoked on a VSync tick exactly when a draw or an
EE transfer has occurred since the previous tick; when it is invoked (and the
hash-cache budget is not exceeded) the cache becomes `incAge` of the old
cache, under which every surviving Source, Target and hash-cache entry is a
former entry with its age incremented, and every former Source still under
the threshold or still referenced survives with its age incremented. -/
theorem vsync_incAge_condition (maxAge : Nat) (st : VSyncState)
    (s_n s_transfer_n : Nat) :
    ((vsyncStep maxAge st s_n s_transfer_n).2 = true ↔
      (st.last_draw_n ≠ s_n ∨ st.last_transfer_n ≠ s_transfer_n)) ∧
    (hashCacheMemoryUsage (incAge maxAge st.tc) ≤ 1024 * 1024 * 1024 →
      (vsyncStep maxAge st s_n s_transfer_n).2 = true →
      (vsyncStep maxAge st s_n s_transfer_n).1.tc = incAge maxAge st.tc) ∧
    (∀ e ∈ (incAge maxAge st.tc).sources, ∃ e₀ ∈ st.tc.sources, e = bumpEntry e₀) ∧
    (∀ e ∈ (incAge maxAge st.tc).targets, ∃ e₀ ∈ st.tc.targets, e = bumpEntry e₀) ∧
    (∀ e ∈ (incAge maxAge st.tc).hashEntries,
      ∃ e₀ ∈ st.tc.hashEntries, e = bumpEntry e₀) ∧
    (∀ e₀ ∈ st.tc.sources, (e₀.age + 1 ≤ maxAge ∨ e₀.refs ≠ 0) →
      bumpEntry e₀ ∈ (incAge maxAge st.tc).sources) := by
  obtain ⟨hflag, htc, -⟩ := vsyncStep_characterization maxAge st s_n s_transfer_n
  refine ⟨?_, ?_, fun e he => mem_agePurge_imp he, fun e he => mem_agePurge_imp he,
    fun e he => mem_agePurge_imp he, fun e₀ h hk => bump_mem_agePurge h hk⟩
  · rw [hflag]
    simp [vsyncAges, not_and_or]
  · intro husage hA
    rw [hflag] at hA
    rw [htc]
    simp only [hA, if_true]
    rw [if_neg (not_lt.mpr husage)]

/-- C3 witness: with a draw having occurred (`last_draw_n = 4 ≠ s_n = 5`),
the tick ages the cache: the flag is set and a Source of age 3 survives as
age 4. -/
theorem vsync_incAge_condition_witness :
    (vsyncStep 100 ⟨0, [], 4, 9, ⟨[⟨3, 0, 0⟩], [], []⟩, TexturePreloading.off⟩ 5 9).2 =
      true ∧
    (vsyncStep 100 ⟨0, [], 4, 9, ⟨[⟨3, 0, 0⟩], [], []⟩, TexturePreloading.off⟩ 5 9).1.tc =
      incAge 100 ⟨[⟨3, 0, 0⟩], [], []⟩ ∧
    bumpEntry ⟨3, 0, 0⟩ ∈
      (incAge 100 (⟨[⟨3, 0, 0⟩], [], []⟩ : TCState)).sources := by
  have h := vsync_incAge_condition 100
    ⟨0, [], 4, 9, ⟨[⟨3, 0, 0⟩], [], []⟩, TexturePreloading.off⟩ 5 9
  refine ⟨h.1.mpr (Or.inl (by decide)), ?_, ?_⟩
  · exact h.2.1 (by decide) (h.1.mpr (Or.inl (by decide)))
  · exact h.2.2.2.2.2 ⟨3, 0, 0⟩ (by decide) (Or.inl (by decide))

/-- C5 counterexample: with hash-cache usage one byte over the budget, the
overflow path does not evict just the oldest zero-refcount hash entries — it
removes the entire cache: the Sources and Targets (unrelated state) are
destroyed, and the only hash entry removed has refcount 1. -/
theorem hashCacheOverflow_removes_all_cex :
    hashCacheMemoryUsage (⟨[⟨0, 0, 0⟩], [⟨0, 0, 0⟩], [⟨0, 1, 1073741825⟩]⟩ : TCState) =
      1073741825 ∧
    1024 * 1024 * 1024 < (1073741825 : Nat) ∧
    (vsyncStep 100
        ⟨0, [], 0, 0, ⟨[⟨0, 0, 0⟩], [⟨0, 0, 0⟩], [⟨0, 1, 1073741825⟩]⟩,
          TexturePreloading.full⟩ 1 0).1.tc.sources = [] ∧
    (⟨[⟨0, 0, 0⟩], [⟨0, 0, 0⟩], [⟨0, 1, 1073741825⟩]⟩ : TCState).sources ≠ [] ∧
    (vsyncStep 100
        ⟨0, [], 0, 0, ⟨[⟨0, 0, 0⟩], [⟨0, 0, 0⟩], [⟨0, 1, 1073741825⟩]⟩,
          TexturePreloading.full⟩ 1 0).1.tc.hashEntries = [] ∧
    (⟨0, 1, 1073741825⟩ : AgedEntry).refs ≠ 0 := by
  refine ⟨by decide, by decide, by decide, by decide, by decide, by decide⟩

/-- C5 amended: when the hash cache's memory usage exceeds the fixed
`1024*1024*1024`-byte budget at VSync, the entire texture cache is torn down
(`RemoveAll`: all Sources, Targets and hash entries released, whatever their
age or refcount) and texture preloading is downgraded to `Partial`;
otherwise the cache and the preloading level are left as the tick produced
them. -/
theorem hashCacheOverflow_teardown (maxAge : Nat) (st : VSyncState)
    (s_n s_transfer_n : Nat) :
    (1024 * 1024 * 1024 <
        hashCacheMemoryUsage
          (if (vsyncStep maxAge st s_n s_transfer_n).2 then incAge maxAge st.tc
           else st.tc) →
      (vsyncStep maxAge st s_n s_transfer_n).1.tc = removeAll ∧
      (vsyncStep maxAge st s_n s_transfer_n).1.texturePreloading =
        TexturePreloading.partialPreload) ∧
    (hashCacheMemoryUsage
        (if (vsyncStep maxAge st s_n s_transfer_n).2 then incAge maxAge st.tc
         else st.tc) ≤ 1024 * 1024 * 1024 →
      (vsyncStep maxAge st s_n s_transfer_n).1.tc =
        (if (vsyncStep maxAge st s_n s_transfer_n).2 then incAge maxAge st.tc
         else st.tc) ∧
      (vsyncStep maxAge st s_n s_transfer_n).1.texturePreloading =
        st.texturePreloading) := by
  obtain ⟨hflag, htc, hpre⟩ := vsyncStep_characterization maxAge st s_n s_transfer_n
  rw [hflag]
  constructor
  · intro husage
    rw [htc, hpre]
    simp only []
    exact ⟨if_pos husage, if_pos husage⟩
  · intro husage
    rw [htc, hpre]
    simp only []
    exact ⟨if_neg (not_lt.mpr husage), if_neg (not_lt.mpr husage)⟩

/-- C5 witness: the overflow state of the counterexample triggers the
teardown through the amended theorem. -/
theorem hashCacheOverflow_teardown_witness :
    (vsyncStep 100
        ⟨0, [], 0, 0, ⟨[⟨0, 0, 0⟩], [⟨0, 0, 0⟩], [⟨0, 1, 1073741825⟩]⟩,
          TexturePreloading.full⟩ 1 0).1.tc = removeAll ∧
    (vsyncStep 100
        ⟨0, [], 0, 0, ⟨[⟨0, 0, 0⟩], [⟨0, 0, 0⟩], [⟨0, 1, 1073741825⟩]⟩,
          TexturePreloading.full⟩ 1 0).1.texturePreloading =
      TexturePreloading.partialPreload := by
  exact (hashCacheOverflow_teardown 100
    ⟨0, [], 0, 0, ⟨[⟨0, 0, 0⟩], [⟨0, 0, 0⟩], [⟨0, 1, 1073741825⟩]⟩,
      TexturePreloading.full⟩ 1 0).1 (by decide)

/-- C7: each display-output entry point (`GetOutput`, `GetFeedbackOutput`)
invokes `Update` on exactly the Target its lookup found — flushing its dirty
queue — before returning that Target's texture; when the lookup finds
nothing, no texture is returned and no `Update` is invoked at all. -/
theorem displayOutput_update_before_bind (lk : Option TargetModel)
    (fbBlock fbFBW : Nat) (pgsY scale0 y0 scaleF : Int) :
    (∀ rt, lk = some rt →
      (rendererGetOutput lk fbBlock fbFBW pgsY scale0 y0).events =
        [DisplayEvent.update rt.id] ∧
      (rendererGetOutput lk fbBlock fbFBW pgsY scale0 y0).tex =
        some (targetUpdate rt).texture ∧
      (targetUpdate rt).dirty = [] ∧
      (rendererGetFeedbackOutput lk scaleF).events = [DisplayEvent.update rt.id] ∧
      (rendererGetFeedbackOutput lk scaleF).tex = some (targetUpdate rt).texture) ∧
    (lk = none →
      (rendererGetOutput lk fbBlock fbFBW pgsY scale0 y0).events = [] ∧
      (rendererGetOutput lk fbBlock fbFBW pgsY scale0 y0).tex = none ∧
      (rendererGetFeedbackOutput lk scaleF).events = [] ∧
      (rendererGetFeedbackOutput lk scaleF).tex = none) := by
  constructor
  · rintro rt rfl
    exact ⟨rfl, rfl, rfl, rfl, rfl⟩
  · rintro rfl
    exact ⟨rfl, rfl, rfl, rfl⟩

/-- C7 witness: a concrete Target with a pending dirty rectangle is updated
(queue flushed) and its texture returned by both entry points. -/
theorem displayOutput_update_before_bind_witness :
    (rendererGetOutput (some ⟨1, 42, 2, ⟨0x1c0, 10, 0⟩, [⟨0, 0, 64, 64⟩]⟩)
        0x1c0 10 32 1 0).events = [DisplayEvent.update 1] ∧
    (rendererGetOutput (some ⟨1, 42, 2, ⟨0x1c0, 10, 0⟩, [⟨0, 0, 64, 64⟩]⟩)
        0x1c0 10 32 1 0).tex = some 42 ∧
    (targetUpdate ⟨1, 42, 2, ⟨0x1c0, 10, 0⟩, [⟨0, 0, 64, 64⟩]⟩).dirty = [] := by
  have h := (displayOutput_update_before_bind
    (some ⟨1, 42, 2, ⟨0x1c0, 10, 0⟩, [⟨0, 0, 64, 64⟩]⟩) 0x1c0 10 32 1 0 3).1
    ⟨1, 42, 2, ⟨0x1c0, 10, 0⟩, [⟨0, 0, 64, 64⟩]⟩ rfl
  exact ⟨h.1, h.2.1, h.2.2.1⟩

/-- C4 counterexample: when the backend texture creation fails,
`GSDevice11::CreateSurface` raises `std::bad_alloc` — it does not return a
null pointer. -/
theorem createSurface_throws_cex :
    GSDevice11CreateSurface 16384 false GSTextureType.renderTarget 640 448 1
        ⟨0, false⟩ = Except.error AllocError.badAlloc ∧
    GSDevice11CreateSurface 16384 false GSTextureType.renderTarget 640 448 1
        ⟨0, false⟩ ≠ Except.ok none := by
  exact ⟨rfl, fun h => nomatch h⟩

/-- C4 amended: `GSDevice11::CreateSurface` signals allocation failure by
raising `bad_alloc`, never by returning null: on backend success it returns
a non-null texture, on backend failure it throws, and a normal return is
never the null pointer. -/
theorem createSurface_null_free (texsize : Int) (ty : GSTextureType)
    (w h lv : Int) (fmt : GSTextureFormat) :
    (∃ t, GSDevice11CreateSurface texsize true ty w h lv fmt =
      Except.ok (some t)) ∧
    GSDevice11CreateSurface texsize false ty w h lv fmt =
      Except.error AllocError.badAlloc ∧
    (∀ (succ : Bool) (res : Option GSTexture11Model),
      GSDevice11CreateSurface texsize succ ty w h lv fmt = Except.ok res →
      res ≠ none) := by
  refine ⟨⟨_, rfl⟩, rfl, ?_⟩
  intro succ res hres
  cases succ
  · exact nomatch hres
  · have hinj := Except.ok.inj hres
    intro hn
    rw [hn] at hinj
    exact nomatch hinj

/-- C4 witness: a failing depth-stencil allocation throws, and a mipchained
texture created successfully is a (non-null) concrete texture. -/
theorem createSurface_null_free_witness :
    GSDevice11CreateSurface 16384 false GSTextureType.depthStencil 1024 1024 1
        ⟨7, false⟩ = Except.error AllocError.badAlloc ∧
    (some (⟨⟨256, 256, 5, 3, 40, 1⟩, GSTextureType.texture, ⟨5, false⟩⟩ :
        GSTexture11Model) : Option GSTexture11Model) ≠ none := by
  refine ⟨(createSurface_null_free 16384 GSTextureType.depthStencil 1024 1024 1
    ⟨7, false⟩).2.1, ?_⟩
  exact (createSurface_null_free 16384 GSTextureType.texture 256 256 3
    ⟨5, false⟩).2.2 true _ rfl

/-- C8 counterexample: the memoization key is not exactly the tuple
`(descriptor A, rectangle A, descriptor B)`: two keys agreeing on descriptor
A, rectangle A and descriptor B but differing in B's rectangle are distinct
keys, and both occupy a slot in the cache. -/
theorem surfaceOffsetKey_tuple_cex :
    (⟨⟨0, 0x100, 2, ⟨0, 0, 32, 32⟩⟩, ⟨0, 0x200, 2, ⟨0, 0, 64, 64⟩⟩⟩ :
        SurfaceOffsetKey) ≠
      ⟨⟨0, 0x100, 2, ⟨0, 0, 32, 32⟩⟩, ⟨0, 0x200, 2, ⟨0, 0, 128, 128⟩⟩⟩ ∧
    (⟨⟨0, 0x100, 2, ⟨0, 0, 32, 32⟩⟩, ⟨0, 0x200, 2, ⟨0, 0, 64, 64⟩⟩⟩ :
        SurfaceOffsetKey).elemA =
      (⟨⟨0, 0x100, 2, ⟨0, 0, 32, 32⟩⟩, ⟨0, 0x200, 2, ⟨0, 0, 128, 128⟩⟩⟩ :
        SurfaceOffsetKey).elemA ∧
    (⟨⟨0, 0x100, 2, ⟨0, 0, 32, 32⟩⟩, ⟨0, 0x200, 2, ⟨0, 0, 64, 64⟩⟩⟩ :
        SurfaceOffsetKey).elemB.psm =
      (⟨⟨0, 0x100, 2, ⟨0, 0, 32, 32⟩⟩, ⟨0, 0x200, 2, ⟨0, 0, 128, 128⟩⟩⟩ :
        SurfaceOffsetKey).elemB.psm ∧
    (⟨⟨0, 0x100, 2, ⟨0, 0, 32, 32⟩⟩, ⟨0, 0x200, 2, ⟨0, 0, 64, 64⟩⟩⟩ :
        SurfaceOffsetKey).elemB.bp =
      (⟨⟨0, 0x100, 2, ⟨0, 0, 32, 32⟩⟩, ⟨0, 0x200, 2, ⟨0, 0, 128, 128⟩⟩⟩ :
        SurfaceOffsetKey).elemB.bp ∧
    (⟨⟨0, 0x100, 2, ⟨0, 0, 32, 32⟩⟩, ⟨0, 0x200, 2, ⟨0, 0, 64, 64⟩⟩⟩ :
        SurfaceOffsetKey).elemB.bw =
      (⟨⟨0, 0x100, 2, ⟨0, 0, 32, 32⟩⟩, ⟨0, 0x200, 2, ⟨0, 0, 128, 128⟩⟩⟩ :
        SurfaceOffsetKey).elemB.bw ∧
    (runSurfaceOffsetInserts
      [(⟨⟨0, 0x100, 2, ⟨0, 0, 32, 32⟩⟩, ⟨0, 0x200, 2, ⟨0, 0, 64, 64⟩⟩⟩,
          ⟨true, ⟨0, 0, 0, 0⟩⟩),
        (⟨⟨0, 0x100, 2, ⟨0, 0, 32, 32⟩⟩, ⟨0, 0x200, 2, ⟨0, 0, 128, 128⟩⟩⟩,
          ⟨true, ⟨0, 0, 0, 0⟩⟩)]).length = 2 := by
  refine ⟨by decide, rfl, rfl, rfl, rfl, by decide⟩

/-- C8 amended: the memoization key of the surface-offset cache is the full
pair of `(psm, bp, bw, rect)` elements — B's rectangle is part of the key as
well — and the cache never holds more than
`S_SURFACE_OFFSET_CACHE_MAX_SIZE = 65535` entries. -/
theorem surfaceOffsetCache_key_and_bound
    (entries : List (SurfaceOffsetKey × SurfaceOffsetResult))
    (k1 k2 : SurfaceOffsetKey) :
    (k1 = k2 ↔ (k1.elemA = k2.elemA ∧ k1.elemB = k2.elemB)) ∧
    (runSurfaceOffsetInserts entries).length ≤
      S_SURFACE_OFFSET_CACHE_MAX_SIZE := by
  constructor
  · constructor
    · rintro rfl
      exact ⟨rfl, rfl⟩
    · rintro ⟨h1, h2⟩
      cases k1
      cases k2
      cases h1
      cases h2
      rfl
  · suffices H : ∀ c : List (SurfaceOffsetKey × SurfaceOffsetResult),
        c.length ≤ S_SURFACE_OFFSET_CACHE_MAX_SIZE →
        (entries.foldl (fun c e => surfaceOffsetCacheInsert c e.1 e.2) c).length ≤
          S_SURFACE_OFFSET_CACHE_MAX_SIZE by
      exact H [] (by decide)
    induction entries with
    | nil => exact fun c h => h
    | cons e es ih =>
        intro c hc
        rw [List.foldl_cons]
        refine ih _ ?_
        simp only [surfaceOffsetCacheInsert]
        split
        · exact hc
        · split
          · simp [S_SURFACE_OFFSET_CACHE_MAX_SIZE]
          · rename_i hfit
            simp only [List.length_cons]
            omega

end PCSX2
